import Mathlib

/-
Verification of the store module of casibase (object/store.go): the Store
data model, the store repository operations, provider resolution, and the
vector-refresh orchestration.

External collaborators (the provider lookup boundary, the storage client
constructors, the embedding client constructor and the indexing pipeline)
are not part of the verified file; they are abstracted as an explicit
environment of oracles, so every theorem quantifies over all of their
possible behaviors.  The persistence engine (xorm) is modelled as a pure
list-of-rows database following the persistence boundary described in the
spec.  Go `(value, error)` returns are modelled as `Except String`;
Go nil pointers as `Option`.
-/

/-- Metadata for a single ingested unit (object/store.go, `Properties`). -/
structure Properties where
  collectedTime : String
  subject : String
deriving DecidableEq

/-- Node of the hierarchical document tree (object/store.go, `File`).
The derived `ChildrenMap` cache (tagged `xorm:"-" json:"-"`, never
persisted) is omitted: it is a lazily materialized index, not state. -/
inductive File where
  | node (key title : String) (size : Int) (createdTime : String)
      (isLeaf : Bool) (url : String) (children : List File)

/-- Tenant-scoped configuration root (object/store.go, `Store`). -/
structure Store where
  owner : String
  name : String
  createdTime : String
  displayName : String
  storageProvider : String
  modelProvider : String
  embeddingProvider : String
  frequency : Int
  limitMinutes : Int
  welcome : String
  prompt : String
  fileTree : Option File
  propertiesMap : List (String × Properties)

/-- Modelled from the spec: the `Provider` record is defined outside the
fragment (object/provider.go is absent); per spec section 3 it is an
owner-scoped named record carrying a `Type` and a `SubType`.  The field
`Type` is spelled `type_` because `Type` is reserved in Lean. -/
structure Provider where
  owner : String
  name : String
  type_ : String
  subType : String
deriving DecidableEq

/-- Abstract runtime storage client (the `storage.StorageProvider`
interface value produced by a provider record or by
`storage.NewCasdoorProvider`). -/
structure StorageClient where
  tag : String
deriving DecidableEq

/-- Abstract runtime embedding client (the value produced by
`Provider.GetEmbeddingProvider`). -/
structure EmbeddingClient where
  tag : String
deriving DecidableEq

/-- One invocation of the external indexing pipeline
`addVectorsForStore(storageProviderObj, embeddingProviderObj, "",
store.Name, embeddingProvider.Name, modelProvider.SubType, limit)`,
recorded with its exact arguments. -/
structure PipelineCall where
  storageClient : StorageClient
  embeddingClient : EmbeddingClient
  scope : String
  storeName : String
  embeddingProviderName : String
  modelSubType : String
  limit : Nat
deriving DecidableEq

/-- Modelled from the spec: the external collaborators named in spec
section 6 (provider lookup boundary `GetProvider` and the three
`GetDefault*Provider` lookups, the storage provider boundary, the
embedding client constructor, and the indexing pipeline).  Their
behavior is left abstract; theorems quantify over every `Env`. -/
structure Env where
  getProvider : String → Except String (Option Provider)
  getDefaultStorageProvider : Except String (Option Provider)
  getDefaultModelProvider : Except String (Option Provider)
  getDefaultEmbeddingProvider : Except String (Option Provider)
  providerGetStorageProviderObj : Provider → Except String StorageClient
  newCasdoorProvider : String → Except String StorageClient
  providerGetEmbeddingProvider : Provider → Except String EmbeddingClient
  addVectorsForStore : StorageClient → EmbeddingClient → String → String →
    String → String → Nat → Bool × Option String

/-- Splits a character list on the separator character, mirroring Go
`strings.Split(id, "/")` over the characters of the id. -/
def splitOnSlash : List Char → List (List Char)
  | [] => [[]]
  | c :: cs =>
    if c = '/' then [] :: splitOnSlash cs
    else
      match splitOnSlash cs with
      | [] => [[c]]
      | t :: ts => (c :: t) :: ts

/-- Modelled from the spec: `util.GetOwnerAndNameFromId` is outside the
fragment; per spec section 6 a composite id is the string
`"<owner>/<name>"` and parsing it is pure and must round-trip for any
owner/name pair not containing the separator.  Ids that do not split
into exactly two tokens are outside the spec's contract and map to a
default pair. -/
def GetOwnerAndNameFromId (id : String) : String × String :=
  match splitOnSlash id.data with
  | [ownerChars, nameChars] => (String.mk ownerChars, String.mk nameChars)
  | _ => ("", "")

/-- Modelled from the spec: `util.GetIdFromOwnerAndName` is outside the
fragment; per spec section 6 it formats the composite id
`"<owner>/<name>"`. -/
def GetIdFromOwnerAndName (owner name : String) : String :=
  owner ++ "/" ++ name

/-- The persistence table of stores, one row per record. -/
abbrev DB := List Store

/-- Modelled from the spec: the engine lookup by composite primary key
(spec section 6, CRUD by composite key (owner, name)). -/
def engineGet (db : DB) (owner name : String) : Option Store :=
  List.find? (fun t => t.owner == owner && t.name == name) db

/-- Modelled from the spec: the engine full-column update keyed by the
composite primary key; returns the new table and the number of affected
rows (spec sections 4.3 and 6). -/
def engineUpdate (db : DB) (owner name : String) (s : Store) : DB × Nat :=
  (List.map (fun t => if t.owner == owner && t.name == name then s else t) db,
    (List.filter (fun t => t.owner == owner && t.name == name) db).length)

/-- Modelled from the spec: the engine delete keyed by the composite
primary key; returns the new table and the number of affected rows
(spec sections 4.3 and 6). -/
def engineDelete (db : DB) (owner name : String) : DB × Nat :=
  (List.filter (fun t => !(t.owner == owner && t.name == name)) db,
    (List.filter (fun t => t.owner == owner && t.name == name) db).length)

/-- Insertion into a list kept in descending `createdTime` order. -/
def insertDescByCreatedTime (s : Store) : List Store → List Store
  | [] => [s]
  | t :: ts =>
    match compare s.createdTime t.createdTime with
    | Ordering.lt => t :: insertDescByCreatedTime s ts
    | _ => s :: t :: ts

/-- Sorts rows by descending `createdTime` (the engine's
`Desc("created_time")` ordering, spec section 6). -/
def sortDescByCreatedTime : List Store → List Store
  | [] => []
  | s :: ss => insertDescByCreatedTime s (sortDescByCreatedTime ss)

/-- object/store.go `GetStores`: all stores of one owner, most recently
created first.  The engine query `Desc("created_time").Find(&stores,
&Store{Owner: owner})` is modelled as filter-then-sort per the
persistence boundary of spec section 6. -/
def GetStores (db : DB) (owner : String) : List Store :=
  sortDescByCreatedTime (List.filter (fun s => s.owner == owner) db)

/-- The scan of object/store.go lines 87-91: first store of the listing
whose `StorageProvider` is non-empty. -/
def findStoreWithStorage : List Store → Option Store
  | [] => none
  | s :: rest =>
    if s.storageProvider != "" then some s else findStoreWithStorage rest

/-- object/store.go `GetDefaultStore`: the first store (per-tenant
listing order) with a storage provider set, else the first store, else
none. -/
def GetDefaultStore (db : DB) (owner : String) : Option Store :=
  let stores := GetStores db owner
  match findStoreWithStorage stores with
  | some store => some store
  | none =>
    match stores with
    | [] => none
    | store :: _ => some store

/-- object/store.go `getStore`: single record by (owner, name); the Go
not-found convention (nil record, nil error) is the `none` branch. -/
def getStore (db : DB) (owner name : String) : Option Store :=
  engineGet db owner name

/-- object/store.go `UpdateStore`: parses the id, performs the
preliminary existence lookup, rejects a nil store argument, runs the
full-column update, and returns `(true, nil)` unconditionally — the
affected-row count is ignored (the line `return affected != 0` is
commented out in the source). -/
def UpdateStore (db : DB) (id : String) (store : Option Store) :
    DB × (Bool × Option String) :=
  let ow := GetOwnerAndNameFromId id
  let _existing := getStore db ow.1 ow.2
  match store with
  | none => (db, (false, none))
  | some s =>
    let r := engineUpdate db ow.1 ow.2 s
    (r.1, (true, none))

/-- object/store.go `DeleteStore`: delete by composite key; reports
whether any row was affected. -/
def DeleteStore (db : DB) (store : Store) : DB × (Bool × Option String) :=
  let r := engineDelete db store.owner store.name
  (r.1, (r.2 != 0, none))

/-- object/store.go `Store.GetId`: formats `"<owner>/<name>"`. -/
def Store.GetId (store : Store) : String :=
  store.owner ++ "/" ++ store.name

/-- object/store.go `Store.GetStorageProviderObj` (lines 160-178): empty
reference resolves via the default storage provider lookup, a non-empty
one via the owner-scoped provider lookup; a lookup error is surfaced; a
nil provider record falls back to `storage.NewCasdoorProvider` on the
raw `StorageProvider` string. -/
def GetStorageProviderObj (env : Env) (store : Store) :
    Except String StorageClient :=
  let lookup :=
    if store.storageProvider == "" then env.getDefaultStorageProvider
    else env.getProvider (GetIdFromOwnerAndName store.owner store.storageProvider)
  match lookup with
  | Except.error e => Except.error e
  | Except.ok (some p) => env.providerGetStorageProviderObj p
  | Except.ok none => env.newCasdoorProvider store.storageProvider

/-- object/store.go `Store.GetModelProvider` (lines 180-187). -/
def GetModelProvider (env : Env) (store : Store) :
    Except String (Option Provider) :=
  if store.modelProvider == "" then env.getDefaultModelProvider
  else env.getProvider (GetIdFromOwnerAndName store.owner store.modelProvider)

/-- object/store.go `Store.GetEmbeddingProvider` (lines 189-196). -/
def GetEmbeddingProvider (env : Env) (store : Store) :
    Except String (Option Provider) :=
  if store.embeddingProvider == "" then env.getDefaultEmbeddingProvider
  else env.getProvider (GetIdFromOwnerAndName store.owner store.embeddingProvider)

/-- Outcome of one `RefreshStoreVectors` call: a normal Go return
`(ok, err)`, or a nil-pointer dereference (the Go function panics and
returns nothing). -/
inductive RefreshResult where
  | ret : Bool → Option String → RefreshResult
  | nilPanic : RefreshResult
deriving DecidableEq

/-- object/store.go `RefreshStoreVectors` (lines 198-226), instrumented
with the list of indexing pipeline invocations it performs.  A `none`
embedding provider record is dereferenced at line 214 (the
`GetEmbeddingProvider` method call reads the record's fields) and a
`none` model provider record at line 224 (`modelProvider.SubType`),
before the pipeline is reached: both become `nilPanic`. -/
def RefreshStoreVectors (env : Env) (store : Store) :
    RefreshResult × List PipelineCall :=
  match GetStorageProviderObj env store with
  | Except.error err => (RefreshResult.ret false (some err), [])
  | Except.ok storageProviderObj =>
    match GetModelProvider env store with
    | Except.error err => (RefreshResult.ret false (some err), [])
    | Except.ok modelProviderOpt =>
      match GetEmbeddingProvider env store with
      | Except.error err => (RefreshResult.ret false (some err), [])
      | Except.ok embeddingProviderOpt =>
        match embeddingProviderOpt with
        | none => (RefreshResult.nilPanic, [])
        | some embeddingProvider =>
          match env.providerGetEmbeddingProvider embeddingProvider with
          | Except.error err => (RefreshResult.ret false (some err), [])
          | Except.ok embeddingProviderObj =>
            let limit := if embeddingProvider.type_ = "OpenAI" then 3 else 100000
            match modelProviderOpt with
            | none => (RefreshResult.nilPanic, [])
            | some modelProvider =>
              let r := env.addVectorsForStore storageProviderObj
                embeddingProviderObj "" store.name embeddingProvider.name
                modelProvider.subType limit
              (RefreshResult.ret r.1 r.2,
                [⟨storageProviderObj, embeddingProviderObj, "", store.name,
                  embeddingProvider.name, modelProvider.subType, limit⟩])

/-- A store with every field at its zero value. -/
def emptyStore : Store :=
  ⟨"", "", "", "", "", "", "", 0, 0, "", "", none, []⟩

/-- An embedding provider record of type "OpenAI". -/
def embProv : Provider := ⟨"t1", "emb-openai", "OpenAI", "emb-sub"⟩

/-- A model provider record. -/
def modelProv : Provider := ⟨"t1", "model-x", "LocalAI", "gpt-sub"⟩

/-- A concrete environment: the two providers above are registered, all
default lookups find no record, client construction succeeds, and the
pipeline reports success. -/
def envA : Env :=
  ⟨fun id =>
      if id = "t1/emb-openai" then Except.ok (some embProv)
      else if id = "t1/model-x" then Except.ok (some modelProv)
      else Except.ok none,
    Except.ok none, Except.ok none, Except.ok none,
    fun p => Except.ok ⟨p.name⟩,
    fun s => Except.ok ⟨s⟩,
    fun p => Except.ok ⟨p.name⟩,
    fun _ _ _ _ _ _ _ => (true, none)⟩

/-- Like `envA` but the default storage provider lookup fails. -/
def envErr : Env := { envA with getDefaultStorageProvider := Except.error "boom" }

/-- A store referencing the registered model and embedding providers. -/
def storeS1 : Store :=
  { emptyStore with
    owner := "t1"
    name := "s1"
    modelProvider := "model-x"
    embeddingProvider := "emb-openai" }

/-- Like `storeS1` but with a storage provider name that is not
registered. -/
def storeExt : Store := { storeS1 with storageProvider := "ext-bucket" }

/-- A store whose model and embedding provider names are not
registered. -/
def storeGhost : Store :=
  { emptyStore with
    owner := "t1"
    name := "s2"
    modelProvider := "ghost"
    embeddingProvider := "ghost2" }

/-- A store with all three provider references empty. -/
def storeAllEmpty : Store := { emptyStore with owner := "t1", name := "s3" }

/-- Listing-order fixture: created later, no storage provider. -/
def storeA7 : Store :=
  { emptyStore with owner := "t2", name := "a", createdTime := "2" }

/-- Listing-order fixture: created earlier, storage provider "p1". -/
def storeB7 : Store :=
  { emptyStore with
    owner := "t2"
    name := "b"
    createdTime := "1"
    storageProvider := "p1" }

/-- A two-store table for owner "t2". -/
def db7 : DB := [storeA7, storeB7]

/-- A one-store table that does not contain the key ("t2", "zz"). -/
def db8 : DB := [storeA7]

/-- A store whose key is absent from `db8`. -/
def storeMissing : Store := { emptyStore with owner := "t2", name := "zz" }

/-- A store with separator-free owner and name. -/
def storeAcme : Store := { emptyStore with owner := "acme", name := "kb1" }

/-- Rebuilding a string from its character list is the identity. -/
theorem string_mk_data (s : String) : String.mk s.data = s := rfl

/-- A character list without the separator is a single token. -/
theorem splitOnSlash_of_not_mem (m : List Char) (h : '/' ∉ m) :
    splitOnSlash m = [m] := by
  induction m with
  | nil => rfl
  | cons c cs ih =>
    rw [List.mem_cons] at h
    push_neg at h
    obtain ⟨h1, h2⟩ := h
    have hc : ¬c = '/' := fun e => h1 e.symm
    simp [splitOnSlash, hc, ih h2]

/-- Splitting a list that starts with a separator-free token followed by
the separator peels off that token. -/
theorem splitOnSlash_append (l m : List Char) (h : '/' ∉ l) :
    splitOnSlash (l ++ '/' :: m) = l :: splitOnSlash m := by
  induction l with
  | nil => simp [splitOnSlash]
  | cons c cs ih =>
    rw [List.mem_cons] at h
    push_neg at h
    obtain ⟨h1, h2⟩ := h
    have hc : ¬c = '/' := fun e => h1 e.symm
    simp [splitOnSlash, hc, ih h2]

/-- C9: for every owner/name pair in which neither component contains
the separator "/", `GetId` formats the composite id `"<owner>/<name>"`
and `GetOwnerAndNameFromId` parses it back to exactly the original
owner and name. -/
theorem c9_id_roundtrip (store : Store)
    (howner : '/' ∉ store.owner.data) (hname : '/' ∉ store.name.data) :
    Store.GetId store = store.owner ++ "/" ++ store.name ∧
    GetOwnerAndNameFromId (Store.GetId store) = (store.owner, store.name) := by
  constructor
  · rfl
  · unfold GetOwnerAndNameFromId Store.GetId
    have hdata : (store.owner ++ "/" ++ store.name).data
        = store.owner.data ++ '/' :: store.name.data := by
      simp [String.data_append]
    rw [hdata, splitOnSlash_append _ _ howner, splitOnSlash_of_not_mem _ hname]

/-- Witness for C9 at the concrete pair ("acme", "kb1"). -/
theorem c9_id_roundtrip_witness :
    Store.GetId storeAcme = "acme/kb1" ∧
    GetOwnerAndNameFromId (Store.GetId storeAcme) = ("acme", "kb1") := by
  have h := c9_id_roundtrip storeAcme (by decide) (by decide)
  exact ⟨h.1.trans rfl, h.2⟩

/-- C1: when every resolution step succeeds, `RefreshStoreVectors`
invokes the indexing pipeline with batch limit 3 exactly when the
resolved embedding provider record's type equals "OpenAI", and with
100000 for every other type. -/
theorem c1_batch_limit (env : Env) (store : Store) (sc : StorageClient)
    (mp ep : Provider) (ec : EmbeddingClient)
    (h1 : GetStorageProviderObj env store = Except.ok sc)
    (h2 : GetModelProvider env store = Except.ok (some mp))
    (h3 : GetEmbeddingProvider env store = Except.ok (some ep))
    (h4 : env.providerGetEmbeddingProvider ep = Except.ok ec) :
    (RefreshStoreVectors env store).2 =
      [⟨sc, ec, "", store.name, ep.name, mp.subType,
        if ep.type_ = "OpenAI" then 3 else 100000⟩] := by
  simp only [RefreshStoreVectors, h1, h2, h3, h4]

/-- Witness for C1: a store whose embedding provider has type "OpenAI"
drives the pipeline with limit 3. -/
theorem c1_batch_limit_witness :
    (RefreshStoreVectors envA storeS1).2 =
      [⟨⟨""⟩, ⟨"emb-openai"⟩, "", "s1", "emb-openai", "gpt-sub", 3⟩] := by
  have h := c1_batch_limit envA storeS1 ⟨""⟩ modelProv embProv
    ⟨"emb-openai"⟩ rfl rfl rfl rfl
  exact h.trans (by decide)

/-- C2: each failing resolution step makes `RefreshStoreVectors` return
(false, that same error) without invoking the pipeline, and when every
step succeeds the pipeline is invoked exactly once and its flag and
error are returned unchanged. -/
theorem c2_resolution_abort_single_call (env : Env) (store : Store) :
    (∀ e, GetStorageProviderObj env store = Except.error e →
      RefreshStoreVectors env store = (RefreshResult.ret false (some e), [])) ∧
    (∀ sc e, GetStorageProviderObj env store = Except.ok sc →
      GetModelProvider env store = Except.error e →
      RefreshStoreVectors env store = (RefreshResult.ret false (some e), [])) ∧
    (∀ sc mpo e, GetStorageProviderObj env store = Except.ok sc →
      GetModelProvider env store = Except.ok mpo →
      GetEmbeddingProvider env store = Except.error e →
      RefreshStoreVectors env store = (RefreshResult.ret false (some e), [])) ∧
    (∀ sc mpo ep e, GetStorageProviderObj env store = Except.ok sc →
      GetModelProvider env store = Except.ok mpo →
      GetEmbeddingProvider env store = Except.ok (some ep) →
      env.providerGetEmbeddingProvider ep = Except.error e →
      RefreshStoreVectors env store = (RefreshResult.ret false (some e), [])) ∧
    (∀ sc mp ep ec, GetStorageProviderObj env store = Except.ok sc →
      GetModelProvider env store = Except.ok (some mp) →
      GetEmbeddingProvider env store = Except.ok (some ep) →
      env.providerGetEmbeddingProvider ep = Except.ok ec →
      RefreshStoreVectors env store =
        (RefreshResult.ret
          (env.addVectorsForStore sc ec "" store.name ep.name mp.subType
            (if ep.type_ = "OpenAI" then 3 else 100000)).1
          (env.addVectorsForStore sc ec "" store.name ep.name mp.subType
            (if ep.type_ = "OpenAI" then 3 else 100000)).2,
          [⟨sc, ec, "", store.name, ep.name, mp.subType,
            if ep.type_ = "OpenAI" then 3 else 100000⟩])) := by
  refine ⟨?_, ?_, ?_, ?_, ?_⟩
  · intro e h1
    simp only [RefreshStoreVectors, h1]
  · intro sc e h1 h2
    simp only [RefreshStoreVectors, h1, h2]
  · intro sc mpo e h1 h2 h3
    simp only [RefreshStoreVectors, h1, h2, h3]
  · intro sc mpo ep e h1 h2 h3 h4
    simp only [RefreshStoreVectors, h1, h2, h3, h4]
  · intro sc mp ep ec h1 h2 h3 h4
    simp only [RefreshStoreVectors, h1, h2, h3, h4]

/-- Witness for C2 at a failing storage resolution: the default storage
lookup error "boom" is surfaced unchanged and no pipeline call is
made. -/
theorem c2_resolution_abort_single_call_witness :
    RefreshStoreVectors envErr storeAllEmpty =
      (RefreshResult.ret false (some "boom"), []) :=
  (c2_resolution_abort_single_call envErr storeAllEmpty).1 "boom" rfl

/-- C10: a nil provider record returned with a nil error (the not-found
convention) is not surfaced as an error by `RefreshStoreVectors`: the
nil embedding provider record is dereferenced by the embedding client
method call, and a nil model provider record by the `SubType` read, so
the call ends in a nil-pointer dereference and the pipeline is never
reached. -/
theorem c10_nil_record_panics (env : Env) (store : Store) :
    (∀ sc mpo, GetStorageProviderObj env store = Except.ok sc →
      GetModelProvider env store = Except.ok mpo →
      GetEmbeddingProvider env store = Except.ok none →
      RefreshStoreVectors env store = (RefreshResult.nilPanic, [])) ∧
    (∀ sc ep ec, GetStorageProviderObj env store = Except.ok sc →
      GetModelProvider env store = Except.ok none →
      GetEmbeddingProvider env store = Except.ok (some ep) →
      env.providerGetEmbeddingProvider ep = Except.ok ec →
      RefreshStoreVectors env store = (RefreshResult.nilPanic, [])) := by
  constructor
  · intro sc mpo h1 h2 h3
    simp only [RefreshStoreVectors, h1, h2, h3]
  · intro sc ep ec h1 h2 h3 h4
    simp only [RefreshStoreVectors, h1, h2, h3, h4]

/-- Witness for C10: a store naming unregistered model and embedding
providers resolves both to nil records with nil errors, and the refresh
ends in a nil-pointer dereference rather than an error return. -/
theorem c10_nil_record_panics_witness :
    RefreshStoreVectors envA storeGhost = (RefreshResult.nilPanic, []) :=
  (c10_nil_record_panics envA storeGhost).1 ⟨""⟩ none rfl rfl rfl

/-- C3: a non-empty `StorageProvider` naming a provider the owner-scoped
lookup does not find (nil record, nil error) makes
`GetStorageProviderObj` fall back to constructing a storage client
directly from the raw `StorageProvider` string. -/
theorem c3_storage_raw_fallback (env : Env) (store : Store)
    (h1 : store.storageProvider ≠ "")
    (h2 : env.getProvider
        (GetIdFromOwnerAndName store.owner store.storageProvider)
      = Except.ok none) :
    GetStorageProviderObj env store
      = env.newCasdoorProvider store.storageProvider := by
  have hb : (store.storageProvider == "") = false := by simp [h1]
  simp only [GetStorageProviderObj, hb, Bool.false_eq_true, if_false, h2]

/-- Witness for C3: the unregistered name "ext-bucket" resolves to the
raw-string storage client, not to a failure. -/
theorem c3_storage_raw_fallback_witness :
    GetStorageProviderObj envA storeExt = Except.ok ⟨"ext-bucket"⟩ := by
  have h := c3_storage_raw_fallback envA storeExt (by decide) rfl
  exact h.trans rfl

/-- C4: a non-empty `ModelProvider` (resp. `EmbeddingProvider`) whose
owner-scoped lookup finds no record makes `GetModelProvider` (resp.
`GetEmbeddingProvider`) surface the not-found condition (nil record,
nil error) instead of substituting a default provider. -/
theorem c4_named_not_found (env : Env) (store : Store) :
    (store.modelProvider ≠ "" →
      env.getProvider (GetIdFromOwnerAndName store.owner store.modelProvider)
        = Except.ok none →
      GetModelProvider env store = Except.ok none) ∧
    (store.embeddingProvider ≠ "" →
      env.getProvider (GetIdFromOwnerAndName store.owner store.embeddingProvider)
        = Except.ok none →
      GetEmbeddingProvider env store = Except.ok none) := by
  constructor
  · intro h1 h2
    have hb : (store.modelProvider == "") = false := by simp [h1]
    simp only [GetModelProvider, hb, Bool.false_eq_true, if_false, h2]
  · intro h1 h2
    have hb : (store.embeddingProvider == "") = false := by simp [h1]
    simp only [GetEmbeddingProvider, hb, Bool.false_eq_true, if_false, h2]

/-- Witness for C4: the unregistered names "ghost" and "ghost2" both
surface as nil record with nil error. -/
theorem c4_named_not_found_witness :
    GetModelProvider envA storeGhost = Except.ok none ∧
    GetEmbeddingProvider envA storeGhost = Except.ok none :=
  ⟨(c4_named_not_found envA storeGhost).1 (by decide) rfl,
    (c4_named_not_found envA storeGhost).2 (by decide) rfl⟩

/-- C5: a store whose three provider references are all empty resolves
each of them through the corresponding default-provider lookup, and the
outcome is exactly the outcome of those lookups — emptiness alone never
produces an error. -/
theorem c5_empty_refs_use_defaults (env : Env) (store : Store)
    (h1 : store.storageProvider = "") (h2 : store.modelProvider = "")
    (h3 : store.embeddingProvider = "") :
    GetModelProvider env store = env.getDefaultModelProvider ∧
    GetEmbeddingProvider env store = env.getDefaultEmbeddingProvider ∧
    GetStorageProviderObj env store =
      (match env.getDefaultStorageProvider with
        | Except.error e => Except.error e
        | Except.ok (some p) => env.providerGetStorageProviderObj p
        | Except.ok none => env.newCasdoorProvider store.storageProvider) := by
  refine ⟨?_, ?_, ?_⟩
  · simp [GetModelProvider, h2]
  · simp [GetEmbeddingProvider, h3]
  · simp [GetStorageProviderObj, h1]

/-- Witness for C5: with all references empty and all default lookups
finding no record, resolution returns the default-lookup outcomes and
no error. -/
theorem c5_empty_refs_use_defaults_witness :
    GetModelProvider envA storeAllEmpty = Except.ok none ∧
    GetEmbeddingProvider envA storeAllEmpty = Except.ok none ∧
    GetStorageProviderObj envA storeAllEmpty = Except.ok ⟨""⟩ := by
  have h := c5_empty_refs_use_defaults envA storeAllEmpty rfl rfl rfl
  exact ⟨h.1.trans rfl, h.2.1.trans rfl, h.2.2.trans rfl⟩

/-- Counterexample to C6: on an empty table the key ("a", "b") is
absent and the full-column update affects zero rows, yet `UpdateStore`
still reports success (true, nil). -/
theorem c6_counterexample :
    getStore ([] : DB) "a" "b" = none ∧
    (engineUpdate ([] : DB) "a" "b" storeS1).2 = 0 ∧
    (UpdateStore ([] : DB) "a/b" (some storeS1)).2 = (true, none) :=
  ⟨rfl, rfl, rfl⟩

/-- C6 as amended: `UpdateStore` on a non-nil store reports success
(true, nil) whenever the write raises no error, regardless of whether
any row was affected — the affected-row count is discarded. -/
theorem c6_update_ignores_affected (db : DB) (id : String) (s : Store) :
    (UpdateStore db id (some s)).2 = (true, none) := rfl

/-- The scan of `GetDefaultStore` is `List.find?` over the non-empty
storage provider test. -/
theorem findStoreWithStorage_eq_find (l : List Store) :
    findStoreWithStorage l
      = List.find? (fun s => s.storageProvider != "") l := by
  induction l with
  | nil => rfl
  | cons s rest ih =>
    by_cases h : (s.storageProvider != "") = true
    · simp [findStoreWithStorage, List.find?, h]
    · simp only [Bool.not_eq_true] at h
      simp [findStoreWithStorage, List.find?, h, ih]

/-- C7: `GetDefaultStore` returns the first store of the per-tenant
listing (most recently created first) with a non-empty storage
provider, else the first store of the listing, else none; and on the
listing [a (no storage provider), b (storage provider "p1")] it returns
b. -/
theorem c7_get_default_store (db : DB) (owner : String) :
    (GetDefaultStore db owner =
      (match List.find? (fun s => s.storageProvider != "")
          (GetStores db owner) with
        | some s => some s
        | none => (GetStores db owner).head?)) ∧
    GetStores db7 "t2" = [storeA7, storeB7] ∧
    GetDefaultStore db7 "t2" = some storeB7 := by
  refine ⟨?_, rfl, rfl⟩
  simp only [GetDefaultStore, findStoreWithStorage_eq_find]
  cases List.find? (fun s => s.storageProvider != "") (GetStores db owner) with
  | none =>
    cases GetStores db owner with
    | nil => rfl
    | cons a l => rfl
  | some s => rfl

/-- C8: deleting a store whose composite key (owner, name) is absent
from the table reports no effect (false, nil) and leaves the table
unchanged. -/
theorem c8_delete_missing (db : DB) (store : Store)
    (h : ∀ s ∈ db, ¬(s.owner = store.owner ∧ s.name = store.name)) :
    (DeleteStore db store).2 = (false, none) ∧
    (DeleteStore db store).1 = db := by
  have hmatch : ∀ s ∈ db,
      (s.owner == store.owner && s.name == store.name) = false := by
    intro s hs
    cases hb : (s.owner == store.owner && s.name == store.name) with
    | false => rfl
    | true =>
      rw [Bool.and_eq_true, beq_iff_eq, beq_iff_eq] at hb
      exact absurd hb (h s hs)
  have hfilter0 :
      List.filter (fun t => t.owner == store.owner && t.name == store.name) db
        = [] := by
    rw [List.filter_eq_nil_iff]
    intro a ha
    simp [hmatch a ha]
  have hfilter1 :
      List.filter (fun t => !(t.owner == store.owner && t.name == store.name)) db
        = db := by
    rw [List.filter_eq_self]
    intro a ha
    simp [hmatch a ha]
  constructor
  · simp only [DeleteStore, engineDelete]
    rw [hfilter0]
    rfl
  · simp only [DeleteStore, engineDelete]
    exact hfilter1

/-- Witness for C8: the key ("t2", "zz") is absent from `db8`, so the
delete reports (false, nil). -/
theorem c8_delete_missing_witness :
    (DeleteStore db8 storeMissing).2 = (false, none) :=
  (c8_delete_missing db8 storeMissing (by decide)).1
